import Mathlib

/-!
Verification of the NATS auth-callout server (sergey-arkhipov/nats-auth-callout-server).

Shallow embedding of:
- `auth-server/authresponse/handler.go` (Handler.HandleRequest / decodeRequest /
  validateUser / generateUserJWT / respond) — namespace `HandlerGo`;
- the README's variant of the handler (bearer flow, missing-credentials check,
  permission translation) — namespace `HandlerReadme`;
- `tokenvalidation.ValidateNatsToken` (golang-jwt/jwt/v4 variant) — namespace
  `Tokenvalidation`;
- `auth-server/authkeys/server_keys.go` `Parse` and `auth-server/config/config.go`
  `Load` validation.

Third-party primitives (nkeys key pairs, sealed-box open/seal, JWT serialization
and Ed25519 signing, YAML unmarshalling) are abstracted as explicit function
parameters; the control flow and all string comparisons, error messages and
field assignments are translated from the Go source.  Go `[]byte` payloads are
modelled as `String` (the code only converts back and forth), Go `map` lookups
as association-list lookups, and a Go panic as a distinguished outcome value.
-/

namespace NatsAuth

/-- jwt.Permission from nats-io/jwt/v2: allow and deny subject-pattern lists. -/
structure Permission where
  allow : List String := []
  deny : List String := []
deriving DecidableEq, Repr

/-- jwt.ResponsePermission: bound on replies per request. -/
structure ResponsePermission where
  maxMsgs : Int := 0
deriving DecidableEq, Repr

/-- jwt.Permissions: Pub and Sub are value structs, Resp is a nullable pointer. -/
structure Permissions where
  pub : Permission := {}
  sub : Permission := {}
  resp : Option ResponsePermission := Option.none
deriving DecidableEq, Repr

/-- auth.User from auth-server/auth/types.go. -/
structure User where
  permissions : Permissions := {}
  pass : String := ""
  account : String := ""
deriving DecidableEq, Repr

/-- ConnectOptions of jwt.AuthorizationRequestClaims (the fields the handler reads). -/
structure ConnectOptions where
  username : String := ""
  password : String := ""
  token : String := ""
deriving DecidableEq, Repr

/-- jwt.AuthorizationRequestClaims (the fields the handler reads). -/
structure AuthRequestClaims where
  userNkey : String := ""
  serverId : String := ""
  connectOptions : ConnectOptions := {}
deriving DecidableEq, Repr

/-- jwt.UserClaims as populated by generateUserJWT: subject from NewUserClaims,
then Name, Audience and Permissions assigned. -/
structure UserClaims where
  sub : String
  name : String
  aud : String
  permissions : Permissions
deriving DecidableEq, Repr

/-- jwt.AuthorizationResponseClaims as populated by respond: subject from
NewAuthorizationResponseClaims, then Audience, Error and Jwt assigned. -/
structure AuthResponseClaims where
  sub : String
  aud : String
  error : String
  jwt : String
deriving DecidableEq, Repr

/-- micro.Request as observed by the handler: the payload bytes and the value of
the Nats-Server-Xkey header ("" when the header is absent, as Header.Get returns). -/
structure MicroRequest where
  data : String := ""
  xkeyHeader : String := ""
deriving DecidableEq, Repr

/-- A JSON-ish value, modelling Go `any` as produced by encoding/json: objects
are `map[string]any`, arrays `[]any`, numbers `float64` (here `Int`; no claim
depends on fractional values). -/
inductive JValue where
  | str (s : String)
  | num (n : Int)
  | boolean (b : Bool)
  | arr (xs : List JValue)
  | obj (fields : List (String × JValue))
  | null

/-- strings.Split with a one-character separator, over the character list
(agrees with Go: splitting the empty string yields one empty part). -/
def goSplit (s : String) (sep : Char) : List String :=
  (s.data.splitOn sep).map fun l => String.mk l

/-- strings.HasPrefix, over the character lists. -/
def goStartsWith (s p : String) : Bool := p.data.isPrefixOf s.data

/-- Go map lookup on an association list (JSON objects have unique keys). -/
def lookupJ : List (String × JValue) → String → Option JValue
  | [], _ => Option.none
  | (k, v) :: rest, key => if k = key then some v else lookupJ rest key

/-- The fixed first segment of a nats-io/jwt/v2 compact JWT (base64url of the
header JSON); its exact characters are irrelevant, only that it is non-empty. -/
def natsJwtHeader : String := "eyJ0eXAiOiJKV1QiLCJhbGciOiJlZDI1NTE5LW5rZXkifQ"

/-- jwt/v2 Claims.Encode output shape: header.payload.signature. -/
def compactJWT (payload sig : String) : String :=
  natsJwtHeader ++ "." ++ payload ++ "." ++ sig

/-- Sealed-box operations of the curve key pair (nkeys KeyPair.Open / KeyPair.Seal),
abstracted: both can fail (malformed peer key, corrupt box). -/
structure CurveOps where
  openBox : String → String → Except String String
  sealBox : String → String → Except String String

/-- The issuer-key operations used by uc.Encode: payload serialization (total)
and signing (fallible).  jwt/v2 Encode serializes the claims, signs, and joins
the three segments with dots; `encodeUser` below reproduces that shape. -/
structure JwtEnv where
  serializeUser : UserClaims → String
  signUser : UserClaims → Except String String
  validationErrors : UserClaims → List String

/-- uc.Encode(h.keyPairs.Issuer): sign, then assemble the compact form. -/
def encodeUser (env : JwtEnv) (uc : UserClaims) : Except String String :=
  match env.signUser uc with
  | Except.error e => Except.error e
  | Except.ok sig => Except.ok (compactJWT (env.serializeUser uc) sig)

/-- The minted user credential of generateUserJWT: subject userNkey, Name,
Audience = user.Account, Permissions = user.Permissions (handler.go lines 111-114). -/
def mintedClaims (userNkey username : String) (user : User) : UserClaims :=
  { sub := userNkey, name := username, aud := user.account,
    permissions := user.permissions }

/-- Handler.generateUserJWT (handler.go lines 110-123): build the claims, run
jwt validation, and encode with the issuer key. -/
def generateUserJWT (env : JwtEnv) (userNkey username : String) (user : User) :
    Except String String :=
  let uc := mintedClaims userNkey username user
  if (env.validationErrors uc).length > 0 then Except.error "validating claims"
  else encodeUser env uc

/-- The four arguments HandleRequest passes to respond on each path. -/
structure RespondArgs where
  userNkey : String
  serverID : String
  userJwt : String
  errMsg : String
deriving DecidableEq, Repr

/-- The response claims respond builds (handler.go lines 128-131). -/
def respondClaims (a : RespondArgs) : AuthResponseClaims :=
  { sub := a.userNkey, aud := a.serverID, error := a.errMsg, jwt := a.userJwt }

namespace HandlerGo

/-- The Handler's environment: issuer-key operations, response encoding,
request-claims decoding, the optional curve key pair, and the user repository
(UserRepository.Get, returning `Option.none` when absent). -/
structure Env where
  jwtEnv : NatsAuth.JwtEnv
  encodeResp : AuthResponseClaims → Except String String
  decodeAuthRequest : String → Except String AuthRequestClaims
  curve : Option CurveOps
  userRepo : String → Option User

/-- Handler.decodeRequest (handler.go lines 80-95). -/
def decodeRequest (env : Env) (req : MicroRequest) : Except String String :=
  if req.xkeyHeader = "" then Except.ok req.data
  else
    match env.curve with
    | Option.none => Except.error "xkey not supported"
    | some c =>
      match c.openBox req.data req.xkeyHeader with
      | Except.error e => Except.error ("decrypting message: " ++ e)
      | Except.ok token => Except.ok token

/-- Handler.validateUser (handler.go lines 98-107): look the username up in the
repository and compare the password byte-wise.  There is no bearer branch and
no missing-credentials check in this variant. -/
def validateUser (userRepo : String → Option User) (rc : AuthRequestClaims) :
    Except String User :=
  match userRepo rc.connectOptions.username with
  | Option.none => Except.error "user not found"
  | some user =>
    if user.pass ≠ rc.connectOptions.password then
      Except.error "invalid credentials"
    else Except.ok user

/-- Handler.respond (handler.go lines 127-157): encode the response claims; on
encoding failure publish nil; when the xkey header is present, publish a fixed
plaintext diagnostic if no curve key pair exists or sealing fails, otherwise the
sealed bytes; with no header publish the encoded claims.  The returned list is
the sequence of req.Respond payloads (Option.none models Respond(nil)). -/
def respond (env : Env) (req : MicroRequest) (a : RespondArgs) :
    List (Option String) :=
  match env.encodeResp (respondClaims a) with
  | Except.error _ => [Option.none]
  | Except.ok data =>
    if req.xkeyHeader ≠ "" then
      match env.curve with
      | Option.none => [some "Encryption not supported: missing curve key pair"]
      | some c =>
        match c.sealBox data req.xkeyHeader with
        | Except.error _ => [some "Failed to encrypt response"]
        | Except.ok enc => [some enc]
    else [some data]

/-- The respond arguments HandleRequest computes (handler.go lines 46-77): each
path of HandleRequest ends in exactly one tail call to respond with these
arguments. -/
def handlerReply (env : Env) (req : MicroRequest) : RespondArgs :=
  match decodeRequest env req with
  | Except.error e =>
    { userNkey := "", serverID := "", userJwt := "", errMsg := e }
  | Except.ok token =>
    match env.decodeAuthRequest token with
    | Except.error e =>
      { userNkey := "", serverID := "", userJwt := "",
        errMsg := "decoding authorization request: " ++ e }
    | Except.ok rc =>
      match validateUser env.userRepo rc with
      | Except.error e =>
        { userNkey := rc.userNkey, serverID := rc.serverId, userJwt := "",
          errMsg := e }
      | Except.ok user =>
        match generateUserJWT env.jwtEnv rc.userNkey rc.connectOptions.username
            user with
        | Except.error e =>
          { userNkey := rc.userNkey, serverID := rc.serverId, userJwt := "",
            errMsg := "generating user JWT: " ++ e }
        | Except.ok userJWT =>
          { userNkey := rc.userNkey, serverID := rc.serverId,
            userJwt := userJWT, errMsg := "" }

/-- Handler.HandleRequest: compute the respond arguments and publish. -/
def HandleRequest (env : Env) (req : MicroRequest) : List (Option String) :=
  respond env req (handlerReply env req)

end HandlerGo

namespace Tokenvalidation

/-- JOSE header algorithms as recognised by golang-jwt/jwt/v4: the three HMAC
methods, representative registered non-HMAC methods, "none", and `other` for an
algorithm string not in the library registry. -/
inductive Alg where
  | hs256 | hs384 | hs512 | rs256 | es256 | algNone | other
deriving DecidableEq, Repr

/-- Whether token.Method type-asserts to *jwt.SigningMethodHMAC: true exactly
for the HMAC family HS256/HS384/HS512. -/
def isHMAC : Alg → Bool
  | Alg.hs256 => true
  | Alg.hs384 => true
  | Alg.hs512 => true
  | _ => false

/-- Observations of a bearer-token string that ValidateNatsToken and the jwt/v4
parser make: the raw characters, the decoded header algorithm (`Option.none`
when the header segment is undecodable), whether the claims JSON decodes, the
decoded claim fields, and whether the signature verifies under the process
secret with the header's HMAC method. -/
structure TokenModel where
  raw : String
  header : Option Alg := Option.none
  claimsOk : Bool := true
  userId : String := ""
  account : String := ""
  permissions : List (String × JValue) := []
  exp : Option Int := Option.none
  iat : Option Int := Option.none
  sigOk : Bool := false

/-- jwt.ParseWithClaims of golang-jwt/jwt/v4 with NatsTokenClaims and the
handler's keyfunc: decode header and claims, look the method up, reject
non-HMAC methods in the keyfunc, validate the registered claims (exp strictly
in the future when present, iat not in the future when present), verify the
HMAC signature. -/
def parseWithClaims (now : Int) (tok : TokenModel) : Except String Unit :=
  match tok.header with
  | Option.none => Except.error "token is malformed"
  | some alg =>
    if alg = Alg.other then Except.error "signing method (alg) is unavailable"
    else if tok.claimsOk = false then Except.error "token is malformed"
    else if isHMAC alg = false then Except.error "unexpected signing method"
    else
      let expired := match tok.exp with
        | some e => decide (e ≤ now)
        | Option.none => false
      let premature := match tok.iat with
        | some i => decide (now < i)
        | Option.none => false
      if expired then Except.error "token is expired"
      else if premature then Except.error "token used before issued"
      else if tok.sigOk = false then Except.error "signature is invalid"
      else Except.ok ()

/-- Outcome of ValidateNatsToken; `panicked` models a Go runtime panic. -/
inductive TVResult where
  | panicked
  | err (msg : String)
  | ok (userId : String) (perms : List (String × JValue))

/-- ValidateNatsToken (tokenvalidation, golang-jwt/jwt/v4 variant): require the
secret, check the three-segment format — the debug log in that branch slices
tokenString[:10], which panics when the string is shorter than 10 bytes — run
jwt.ParseWithClaims, log (slicing tokenString[:10] again), re-check expiry
against the wall clock, require a non-empty user_id, and return the claims. -/
def ValidateNatsToken (secret : String) (now : Int) (tok : TokenModel) :
    TVResult :=
  if secret = "" then
    TVResult.err "NATS_TOKEN_SECRET environment variable is not set"
  else if (goSplit tok.raw '.').length ≠ 3 then
    if tok.raw.utf8ByteSize < 10 then TVResult.panicked
    else TVResult.err "invalid token format"
  else
    -- jwt.ParseWithClaims runs first; the debug log then slices tokenString[:10],
    -- so a three-segment token shorter than 10 bytes panics before the parse
    -- error is inspected (parsing itself cannot panic, so inlining it into the
    -- match below preserves the observable outcome)
    if tok.raw.utf8ByteSize < 10 then TVResult.panicked
    else
      match parseWithClaims now tok with
      | Except.error e => TVResult.err e
      | Except.ok _ =>
        let expiredNow := match tok.exp with
          | some e => decide (e < now)
          | Option.none => false
        if expiredNow then TVResult.err "token expired"
        else if tok.userId = "" then TVResult.err "missing user_id in token"
        else TVResult.ok tok.userId tok.permissions

end Tokenvalidation

namespace HandlerReadme

open Tokenvalidation

/-- The string elements of a Go []any via the unchecked assertion v.(string)
in the README translator loop: `Option.none` models the panic raised by the
first non-string element. -/
def stringElems : List JValue → Option (List String)
  | [] => some []
  | JValue.str s :: rest =>
    match stringElems rest with
    | some ss => some (s :: ss)
    | Option.none => Option.none
  | _ :: _ => Option.none

/-- One pub/sub slot of the README translator: if the slot value is an object,
read its allow and deny keys when they are arrays (panicking on non-string
elements); a missing or non-object slot, or a missing/non-array key, leaves the
zero Permission. -/
def convertDirSlot (v : Option JValue) : Option Permission :=
  match v with
  | some (JValue.obj fields) =>
    let allowRes := match lookupJ fields "allow" with
      | some (JValue.arr xs) => stringElems xs
      | _ => some []
    let denyRes := match lookupJ fields "deny" with
      | some (JValue.arr xs) => stringElems xs
      | _ => some []
    match allowRes, denyRes with
    | some a, some d => some { allow := a, deny := d }
    | _, _ => Option.none
  | _ => some { allow := [], deny := [] }

/-- The README permission translation (README handler listing, token branch):
convert the free-form permissions document into jwt.Permissions; the resp slot
is kept only when resp is an object whose "max" key is a number (renamed to
MaxMsgs).  `Option.none` models the panic on a non-string allow/deny element. -/
def convertPermissions (doc : List (String × JValue)) : Option Permissions :=
  match convertDirSlot (lookupJ doc "pub"), convertDirSlot (lookupJ doc "sub") with
  | some pubP, some subP =>
    let respP := match lookupJ doc "resp" with
      | some (JValue.obj fields) =>
        match lookupJ fields "max" with
        | some (JValue.num n) => some { maxMsgs := n : ResponsePermission }
        | _ => Option.none
      | _ => Option.none
    some { pub := pubP, sub := subP, resp := respP }
  | _, _ => Option.none

/-- Outcome of the README validateUser: a Go panic (propagated from token
validation or permission conversion), an error, or the synthesized principal
and the remembered userID. -/
inductive AuthOutcome where
  | panicked
  | err (msg : String)
  | ok (user : User) (userID : String)

/-- The README variant of Handler.validateUser: bearer flow when
ConnectOptions.Token is non-empty (validate the token, translate permissions,
synthesize a principal with empty password and the token's account, remember
user_id), otherwise the static flow guarded by the missing-credentials check.
The token's parsed claims carry the account (README line `Account: user.Account`). -/
def validateUser (secret : String) (now : Int)
    (tokenOf : String → TokenModel) (userRepo : String → Option User)
    (rc : AuthRequestClaims) : AuthOutcome :=
  if rc.connectOptions.token ≠ "" then
    let tok := tokenOf rc.connectOptions.token
    match ValidateNatsToken secret now tok with
    | TVResult.panicked => AuthOutcome.panicked
    | TVResult.err e => AuthOutcome.err ("validating nats_token: " ++ e)
    | TVResult.ok userID perms =>
      match convertPermissions perms with
      | Option.none => AuthOutcome.panicked
      | some jwtPerms =>
        AuthOutcome.ok
          { permissions := jwtPerms, pass := "", account := tok.account } userID
  else
    if rc.connectOptions.username = "" ∨ rc.connectOptions.password = "" then
      AuthOutcome.err "username or password missing"
    else
      match userRepo rc.connectOptions.username with
      | Option.none => AuthOutcome.err "user not found"
      | some user =>
        if user.pass ≠ rc.connectOptions.password then
          AuthOutcome.err "invalid credentials"
        else AuthOutcome.ok user ""

/-- The README HandleRequest's choice of credential name: userID from the
token, falling back to ConnectOptions.Username when empty (README lines
294-298). -/
def mintName (userID username : String) : String :=
  if userID = "" then username else userID

end HandlerReadme

/-- An nkeys key pair, abstract (only its identity matters here). -/
structure NKey where
  keyId : Nat
deriving DecidableEq, Repr

/-- auth.KeyPairs as built by authkeys.Parse. -/
structure KeyPairs where
  issuer : NKey
  curve : Option NKey := Option.none
  hasXKey : Bool := false
deriving DecidableEq, Repr

/-- authkeys.truncateSeed (server_keys.go lines 54-59). -/
def truncateSeed (seed : String) : String :=
  if seed.length > 3 then seed.take 3 ++ "..." else seed

/-- authkeys.Parse (server_keys.go lines 20-51); nkeys.FromSeed is abstracted
as the `fromSeed` parameter. -/
def Parse (fromSeed : String → Except String NKey)
    (issuerSeed xkeySeed : String) : Except String KeyPairs :=
  if issuerSeed = "" then Except.error "issuer seed cannot be empty"
  else
    match fromSeed issuerSeed with
    | Except.error e =>
      Except.error ("parsing issuer seed " ++ truncateSeed issuerSeed ++ ": " ++ e)
    | Except.ok issuer =>
      if goStartsWith issuerSeed "SA" = false then
        Except.error ("issuer seed " ++ truncateSeed issuerSeed ++
          " must start with SA")
      else
        if xkeySeed ≠ "" then
          match fromSeed xkeySeed with
          | Except.error e =>
            Except.error ("parsing xkey seed " ++ truncateSeed xkeySeed ++ ": " ++ e)
          | Except.ok curve =>
            if goStartsWith xkeySeed "SX" = false then
              Except.error ("xkey seed " ++ truncateSeed xkeySeed ++
                " must start with SX")
            else Except.ok { issuer := issuer, curve := some curve, hasXKey := true }
        else Except.ok { issuer := issuer, curve := Option.none, hasXKey := false }

/-- config.Config after yaml.Unmarshal: absent YAML keys leave the Go zero
value, the empty string. -/
structure Config where
  natsUrl : String := ""
  natsUser : String := ""
  natsPass : String := ""
  issuerSeed : String := ""
  xkeySeed : String := ""
  usersFile : String := ""
  environment : String := ""
deriving DecidableEq, Repr

/-- The validation and defaulting step of config.Load (config.go lines 68-79),
after the file has been read and unmarshalled (both abstracted away). -/
def loadValidation (cfg : Config) : Except String Config :=
  if cfg.issuerSeed = "" then Except.error "auth.issuer_seed is required"
  else if cfg.xkeySeed = "" then Except.error "auth.xkey_seed is required"
  else if cfg.environment = "" then
    Except.ok { cfg with environment := "development" }
  else Except.ok cfg

/-! Concrete fixtures used to evaluate the embedded code on specific inputs. -/

/-- A trivial issuer-key environment for concrete runs. -/
def jwtEnvTriv : JwtEnv :=
  { serializeUser := fun _ => "PAYLOAD",
    signUser := fun _ => Except.ok "SIG",
    validationErrors := fun _ => [] }

/-- The alice principal of the debug store (empty permissions variant). -/
def aliceUser : User :=
  { permissions := {}, pass := "alice", account := "DEVELOPMENT" }

/-- Handler environment of a service started without an xkey seed (Curve nil). -/
def envNoCurve : HandlerGo.Env :=
  { jwtEnv := jwtEnvTriv,
    encodeResp := fun _ => Except.ok "RESP",
    decodeAuthRequest := fun _ => Except.error "not a jwt",
    curve := Option.none,
    userRepo := fun _ => Option.none }

/-- A request whose inbound message carries the Nats-Server-Xkey header. -/
def reqXkey : MicroRequest := { data := "payload", xkeyHeader := "Xpeer" }

/-- Sealed-box operations whose seal tags its input, for concrete runs. -/
def curveOpsTag : CurveOps :=
  { openBox := fun d _ => Except.ok d,
    sealBox := fun d _ => Except.ok ("SEALED:" ++ d) }

/-- A decoded request for the static alice flow. -/
def rcAlice : AuthRequestClaims :=
  { userNkey := "UKEY", serverId := "SRV",
    connectOptions := { username := "alice", password := "alice", token := "" } }

/-- Handler environment of a service with a curve key pair, vending alice. -/
def envCurve : HandlerGo.Env :=
  { jwtEnv := jwtEnvTriv,
    encodeResp := fun _ => Except.ok "RESP",
    decodeAuthRequest := fun _ => Except.ok rcAlice,
    curve := some curveOpsTag,
    userRepo := fun u => if u = "alice" then some aliceUser else Option.none }

/-- A decoded request with no bearer token, no username and no password. -/
def rcNoCreds : AuthRequestClaims := {}

/-- The empty credential store. -/
def repoEmpty : String → Option User := fun _ => Option.none

/-- A principal stored under the empty user name. -/
def emptyNameUser : User := { pass := "", account := "ACC" }

/-- A store containing an entry whose key is the empty user name. -/
def repoEmptyName : String → Option User :=
  fun u => if u = "" then some emptyNameUser else Option.none

/-- A well-formed token signed with HS384: HMAC family, but not HMAC-SHA256. -/
def tokHS384 : Tokenvalidation.TokenModel :=
  { raw := "aaaa.bbbb.cccc", header := some Tokenvalidation.Alg.hs384,
    claimsOk := true, userId := "bob", account := "TEST", permissions := [],
    exp := some 600, iat := Option.none, sigOk := true }

/-- A well-formed HS256 token with exp in the future. -/
def tokHS256 : Tokenvalidation.TokenModel :=
  { raw := "aaaa.bbbb.cccc", header := some Tokenvalidation.Alg.hs256,
    claimsOk := true, userId := "carol", account := "TEST", permissions := [],
    exp := some 600, iat := Option.none, sigOk := true }

/-- A well-formed HS256 token whose exp claim is absent. -/
def tokNoExp : Tokenvalidation.TokenModel :=
  { raw := "aaaa.bbbb.cccc", header := some Tokenvalidation.Alg.hs256,
    claimsOk := true, userId := "dave", account := "TEST", permissions := [],
    exp := Option.none, iat := Option.none, sigOk := true }

/-- The token string "ab": shorter than 10 bytes and not three dot-separated
segments. -/
def tokShort : Tokenvalidation.TokenModel := { raw := "ab" }

/-- A placeholder token model for flows that never inspect the token. -/
def tokTriv : Tokenvalidation.TokenModel := { raw := "" }

/-- The bearer token of the README happy path, with empty permissions. -/
def tokBob : Tokenvalidation.TokenModel :=
  { raw := "aaaa.bbbb.cccc", header := some Tokenvalidation.Alg.hs256,
    claimsOk := true, userId := "bob", account := "TEST", permissions := [],
    exp := some 600, iat := Option.none, sigOk := true }

/-- Token resolution returning tokBob for every token string. -/
def tokenOfBob : String → Tokenvalidation.TokenModel := fun _ => tokBob

/-- A decoded request using the bearer flow. -/
def rcBearer : AuthRequestClaims :=
  { userNkey := "UKEY", serverId := "SRV",
    connectOptions := { username := "", password := "", token := "tok" } }

/-- The principal the bearer flow synthesizes from tokBob. -/
def bobUser : User :=
  { permissions := { pub := {}, sub := {}, resp := Option.none },
    pass := "", account := "TEST" }

/-- A permissions document whose pub.allow list contains a non-string element. -/
def badPermDoc : List (String × JValue) :=
  [("pub", JValue.obj [("allow", JValue.arr [JValue.num 42])])]

/-- A concrete abstract key pair. -/
def nkey0 : NKey := { keyId := 0 }

/-- Seed parsing that always succeeds, for concrete runs of Parse. -/
def fromSeedOk : String → Except String NKey := fun _ => Except.ok nkey0

/-- The key pairs Parse yields for a valid issuer seed and no curve seed. -/
def kpNoCurve : KeyPairs := { issuer := nkey0, curve := Option.none, hasXKey := false }

/-- A configuration with an issuer seed but no xkey seed. -/
def cfgNoXkey : Config := { issuerSeed := "SAISSUER" }

/-! Helper lemmas shared by the claim theorems. -/

theorem append_ne_empty (a b : String) (ha : a ≠ "") : a ++ b ≠ "" := by
  intro h
  apply ha
  have hd := congrArg String.data h
  simp [String.data_append] at hd
  cases a with
  | mk d => cases hd.1; rfl

theorem compactJWT_ne_empty (payload sig : String) : compactJWT payload sig ≠ "" := by
  unfold compactJWT
  apply append_ne_empty
  apply append_ne_empty
  apply append_ne_empty
  apply append_ne_empty
  decide

theorem decodeRequestGo_error_ne (env : HandlerGo.Env) (req : MicroRequest)
    (e : String) (h : HandlerGo.decodeRequest env req = Except.error e) :
    e ≠ "" := by
  unfold HandlerGo.decodeRequest at h
  by_cases hx : req.xkeyHeader = ""
  · rw [if_pos hx] at h
    exact Except.noConfusion h
  · rw [if_neg hx] at h
    cases hc : env.curve with
    | none =>
      simp only [hc] at h
      injection h with h2
      exact h2 ▸ (by decide : ("xkey not supported" : String) ≠ "")
    | some c =>
      simp only [hc] at h
      cases ho : c.openBox req.data req.xkeyHeader with
      | error e2 =>
        simp only [ho] at h
        injection h with h2
        exact h2 ▸ append_ne_empty "decrypting message: " e2 (by decide)
      | ok token =>
        simp only [ho] at h
        exact Except.noConfusion h

theorem validateUserGo_error_ne (repo : String → Option User)
    (rc : AuthRequestClaims) (e : String)
    (h : HandlerGo.validateUser repo rc = Except.error e) : e ≠ "" := by
  unfold HandlerGo.validateUser at h
  cases hrep : repo rc.connectOptions.username with
  | none =>
    simp only [hrep] at h
    injection h with h2
    exact h2 ▸ (by decide : ("user not found" : String) ≠ "")
  | some user =>
    simp only [hrep] at h
    split at h
    · injection h with h2
      exact h2 ▸ (by decide : ("invalid credentials" : String) ≠ "")
    · exact Except.noConfusion h

theorem generateUserJWT_ok_ne (env : JwtEnv) (n u : String) (user : User)
    (s : String) (h : generateUserJWT env n u user = Except.ok s) : s ≠ "" := by
  simp only [generateUserJWT, encodeUser] at h
  split at h
  · exact Except.noConfusion h
  · cases hs : env.signUser (mintedClaims n u user) with
    | error e =>
      simp only [hs] at h
      exact Except.noConfusion h
    | ok sig =>
      simp only [hs] at h
      injection h with h2
      exact h2 ▸ compactJWT_ne_empty (env.serializeUser (mintedClaims n u user)) sig

theorem respond_publishes_once (env : HandlerGo.Env) (req : MicroRequest)
    (a : RespondArgs) : (HandlerGo.respond env req a).length = 1 := by
  unfold HandlerGo.respond
  split
  · rfl
  · split
    · split
      · rfl
      · split
        · rfl
        · rfl
    · rfl

/-! The claim theorems. -/

/-- Claim C1: for every incoming authorization request, HandleRequest publishes
exactly one reply on the reply subject — Respond is invoked exactly once on
every path, including every error path. -/
theorem c1_exactly_one_reply (env : HandlerGo.Env) (req : MicroRequest) :
    (HandlerGo.HandleRequest env req).length = 1 :=
  respond_publishes_once env req (HandlerGo.handlerReply env req)

/-- Claim C2: every authorization response the handler builds carries exactly
one non-empty field among jwt and error: non-empty jwt with empty error on the
success path, empty jwt with non-empty error on every failure path. -/
theorem c2_exactly_one_of_jwt_error (env : HandlerGo.Env) (req : MicroRequest) :
    ((respondClaims (HandlerGo.handlerReply env req)).jwt = "" ∧
      (respondClaims (HandlerGo.handlerReply env req)).error ≠ "") ∨
    ((respondClaims (HandlerGo.handlerReply env req)).jwt ≠ "" ∧
      (respondClaims (HandlerGo.handlerReply env req)).error = "") := by
  unfold HandlerGo.handlerReply
  split
  next e hdec => exact Or.inl ⟨rfl, decodeRequestGo_error_ne env req e hdec⟩
  next token hdec =>
    split
    next e hreq =>
      exact Or.inl ⟨rfl, append_ne_empty "decoding authorization request: " e
        (by decide)⟩
    next rc hreq =>
      split
      next e hval =>
        exact Or.inl ⟨rfl, validateUserGo_error_ne env.userRepo rc e hval⟩
      next user hval =>
        split
        next e hgen =>
          exact Or.inl ⟨rfl, append_ne_empty "generating user JWT: " e (by decide)⟩
        next s hgen =>
          exact Or.inr ⟨generateUserJWT_ok_ne env.jwtEnv rc.userNkey
            rc.connectOptions.username user s hgen, rfl⟩

/-- Claim C3, counterexample: a request carrying the xkey header, processed by
a service without a curve key pair, is answered with a fixed plaintext
diagnostic — the published bytes are not a sealed-box encryption (no curve key
exists to seal with), refuting "the reply is always sealed, including on every
error path". -/
theorem c3_counterexample :
    reqXkey.xkeyHeader ≠ "" ∧ envNoCurve.curve = Option.none ∧
    HandlerGo.HandleRequest envNoCurve reqXkey =
      [some "Encryption not supported: missing curve key pair"] :=
  ⟨by decide, rfl, rfl⟩

/-- Claim C3, amended: when the service does hold a curve key and both response
encoding and sealing succeed, the reply to a request carrying the xkey header
is exactly the sealed bytes of the issuer-signed response. -/
theorem c3_sealed_when_curve_present (env : HandlerGo.Env) (req : MicroRequest)
    (c : CurveOps) (data enc : String)
    (hx : req.xkeyHeader ≠ "") (hc : env.curve = some c)
    (he : env.encodeResp (respondClaims (HandlerGo.handlerReply env req)) =
      Except.ok data)
    (hs : c.sealBox data req.xkeyHeader = Except.ok enc) :
    HandlerGo.HandleRequest env req = [some enc] := by
  unfold HandlerGo.HandleRequest HandlerGo.respond
  simp only [he, hc, hs, if_pos hx]

/-- Witness for the amended C3 at a concrete environment and request. -/
theorem c3_sealed_when_curve_present_witness :
    HandlerGo.HandleRequest envCurve reqXkey = [some "SEALED:RESP"] :=
  c3_sealed_when_curve_present envCurve reqXkey curveOpsTag "RESP" "SEALED:RESP"
    (by decide) rfl rfl rfl

/-- Claim C4, counterexample: on the compiled handler (handler.go), a decoded
request with no bearer token, no username and no password is not rejected with
a missing-credentials error before the store is consulted — the store is
consulted with the empty username: with an empty store the failure is "user not
found", and with a store keyed by the empty name the request even authenticates. -/
theorem c4_counterexample :
    rcNoCreds.connectOptions.token = "" ∧
    rcNoCreds.connectOptions.username = "" ∧
    rcNoCreds.connectOptions.password = "" ∧
    HandlerGo.validateUser repoEmpty rcNoCreds = Except.error "user not found" ∧
    HandlerGo.validateUser repoEmptyName rcNoCreds = Except.ok emptyNameUser :=
  ⟨rfl, rfl, rfl, rfl, rfl⟩

/-- Claim C4, amended: the README variant of validateUser implements the
claimed behavior — with no token and a missing username or password it fails
with the missing-credentials error for every store (so before any lookup) —
while the compiled handler.go variant only ever fails with "user not found" or
"invalid credentials", never with a missing-credentials error. -/
theorem c4_missing_credentials_variants (secret : String) (now : Int)
    (tokenOf : String → Tokenvalidation.TokenModel)
    (repo : String → Option User) (rc : AuthRequestClaims) :
    (rc.connectOptions.token = "" →
      rc.connectOptions.username = "" ∨ rc.connectOptions.password = "" →
      HandlerReadme.validateUser secret now tokenOf repo rc =
        HandlerReadme.AuthOutcome.err "username or password missing") ∧
    (∀ e, HandlerGo.validateUser repo rc = Except.error e →
      e = "user not found" ∨ e = "invalid credentials") := by
  constructor
  · intro htok hmiss
    unfold HandlerReadme.validateUser
    rw [htok]
    rw [if_neg (by simp)]
    rw [if_pos hmiss]
  · intro e he
    unfold HandlerGo.validateUser at he
    cases hrep : repo rc.connectOptions.username with
    | none =>
      simp only [hrep] at he
      injection he with h2
      exact Or.inl h2.symm
    | some user =>
      simp only [hrep] at he
      split at he
      · injection he with h2
        exact Or.inr h2.symm
      · exact Except.noConfusion he

/-- Witness for the amended C4 at a concrete credential-less request. -/
theorem c4_missing_credentials_variants_witness :
    HandlerReadme.validateUser "secret" 0 (fun _ => tokTriv) repoEmpty rcNoCreds =
      HandlerReadme.AuthOutcome.err "username or password missing" :=
  (c4_missing_credentials_variants "secret" 0 (fun _ => tokTriv) repoEmpty
    rcNoCreds).1 rfl (Or.inl rfl)

theorem parseWithClaims_ok_hmac (now : Int) (tok : Tokenvalidation.TokenModel)
    (u : Unit) (h : Tokenvalidation.parseWithClaims now tok = Except.ok u) :
    ∃ a, tok.header = some a ∧ Tokenvalidation.isHMAC a = true := by
  unfold Tokenvalidation.parseWithClaims at h
  cases hh : tok.header with
  | none =>
    simp only [hh] at h
    exact Except.noConfusion h
  | some alg =>
    simp only [hh] at h
    refine ⟨alg, rfl, ?_⟩
    by_cases h1 : alg = Tokenvalidation.Alg.other
    · rw [if_pos h1] at h
      exact Except.noConfusion h
    · rw [if_neg h1] at h
      by_cases h2 : tok.claimsOk = false
      · rw [if_pos h2] at h
        exact Except.noConfusion h
      · rw [if_neg h2] at h
        by_cases h3 : Tokenvalidation.isHMAC alg = false
        · rw [if_pos h3] at h
          exact Except.noConfusion h
        · cases hfam : Tokenvalidation.isHMAC alg with
          | false => exact absurd hfam h3
          | true => rfl

theorem parseWithClaims_ok_exp (now : Int) (tok : Tokenvalidation.TokenModel)
    (u : Unit) (e : Int)
    (h : Tokenvalidation.parseWithClaims now tok = Except.ok u)
    (hexp : tok.exp = some e) : now < e := by
  unfold Tokenvalidation.parseWithClaims at h
  cases hh : tok.header with
  | none =>
    simp only [hh] at h
    exact Except.noConfusion h
  | some alg =>
    simp only [hh] at h
    by_cases h1 : alg = Tokenvalidation.Alg.other
    · rw [if_pos h1] at h
      exact Except.noConfusion h
    · rw [if_neg h1] at h
      by_cases h2 : tok.claimsOk = false
      · rw [if_pos h2] at h
        exact Except.noConfusion h
      · rw [if_neg h2] at h
        by_cases h3 : Tokenvalidation.isHMAC alg = false
        · rw [if_pos h3] at h
          exact Except.noConfusion h
        · rw [if_neg h3] at h
          simp only [hexp] at h
          by_contra hlt
          have hle : e ≤ now := le_of_not_lt hlt
          rw [if_pos (by simp [decide_eq_true hle])] at h
          exact Except.noConfusion h

theorem validateNatsToken_ok_parse (secret : String) (now : Int)
    (tok : Tokenvalidation.TokenModel) (uid : String)
    (perms : List (String × JValue))
    (h : Tokenvalidation.ValidateNatsToken secret now tok =
      Tokenvalidation.TVResult.ok uid perms) :
    Tokenvalidation.parseWithClaims now tok = Except.ok () := by
  unfold Tokenvalidation.ValidateNatsToken at h
  by_cases h1 : secret = ""
  · rw [if_pos h1] at h
    exact Tokenvalidation.TVResult.noConfusion h
  · rw [if_neg h1] at h
    by_cases h2 : (goSplit tok.raw '.').length ≠ 3
    · rw [if_pos h2] at h
      split at h <;> exact Tokenvalidation.TVResult.noConfusion h
    · rw [if_neg h2] at h
      by_cases h3 : tok.raw.utf8ByteSize < 10
      · rw [if_pos h3] at h
        exact Tokenvalidation.TVResult.noConfusion h
      · rw [if_neg h3] at h
        cases hp : Tokenvalidation.parseWithClaims now tok with
        | error e =>
          simp only [hp] at h
          exact Tokenvalidation.TVResult.noConfusion h
        | ok u =>
          cases u
          rfl

theorem validateNatsToken_ok_fields (secret : String) (now : Int)
    (tok : Tokenvalidation.TokenModel) (uid : String)
    (perms : List (String × JValue))
    (h : Tokenvalidation.ValidateNatsToken secret now tok =
      Tokenvalidation.TVResult.ok uid perms) :
    uid = tok.userId ∧ tok.userId ≠ "" ∧ perms = tok.permissions := by
  unfold Tokenvalidation.ValidateNatsToken at h
  by_cases h1 : secret = ""
  · rw [if_pos h1] at h
    exact Tokenvalidation.TVResult.noConfusion h
  · rw [if_neg h1] at h
    by_cases h2 : (goSplit tok.raw '.').length ≠ 3
    · rw [if_pos h2] at h
      split at h <;> exact Tokenvalidation.TVResult.noConfusion h
    · rw [if_neg h2] at h
      by_cases h3 : tok.raw.utf8ByteSize < 10
      · rw [if_pos h3] at h
        exact Tokenvalidation.TVResult.noConfusion h
      · rw [if_neg h3] at h
        cases hp : Tokenvalidation.parseWithClaims now tok with
        | error e =>
          simp only [hp] at h
          exact Tokenvalidation.TVResult.noConfusion h
        | ok u =>
          cases u
          simp only [hp] at h
          split at h
          · exact Tokenvalidation.TVResult.noConfusion h
          · by_cases h4 : tok.userId = ""
            · rw [if_pos h4] at h
              exact Tokenvalidation.TVResult.noConfusion h
            · rw [if_neg h4] at h
              injection h with ha hb
              exact ⟨ha.symm, h4, hb.symm⟩

/-- Claim C5, counterexample: a well-formed token whose header algorithm is
HS384 — an algorithm other than HMAC-SHA256 — is accepted by ValidateNatsToken
with an identity, refuting "tokens signed with any algorithm other than HS256
are rejected": the keyfunc's type assertion admits the whole
*jwt.SigningMethodHMAC family. -/
theorem c5_counterexample :
    tokHS384.header = some Tokenvalidation.Alg.hs384 ∧
    Tokenvalidation.Alg.hs384 ≠ Tokenvalidation.Alg.hs256 ∧
    Tokenvalidation.ValidateNatsToken "s3cret" 0 tokHS384 =
      Tokenvalidation.TVResult.ok "bob" [] :=
  ⟨rfl, by decide, rfl⟩

/-- Claim C5, amended: ValidateNatsToken returns an identity only for tokens
whose header algorithm is in the HMAC family (HS256, HS384 or HS512); every
token with a non-HMAC algorithm — none, RS256, ES256, or an unregistered
algorithm — never yields an identity. -/
theorem c5_hmac_family_only (secret : String) (now : Int)
    (tok : Tokenvalidation.TokenModel) (uid : String)
    (perms : List (String × JValue))
    (h : Tokenvalidation.ValidateNatsToken secret now tok =
      Tokenvalidation.TVResult.ok uid perms) :
    ∃ a, tok.header = some a ∧ Tokenvalidation.isHMAC a = true :=
  parseWithClaims_ok_hmac now tok ()
    (validateNatsToken_ok_parse secret now tok uid perms h)

/-- Witness for the amended C5 at a concrete accepted HS256 token. -/
theorem c5_hmac_family_only_witness :
    ∃ a, tokHS256.header = some a ∧ Tokenvalidation.isHMAC a = true :=
  c5_hmac_family_only "s3cret" 0 tokHS256 "carol" [] rfl

/-- Claim C6, counterexample: a well-formed token whose exp claim is absent is
accepted by ValidateNatsToken with an identity, refuting "a token whose exp is
absent is rejected with an expiry error": both the explicit expiry check
(guarded by ExpiresAt != nil) and the jwt/v4 claims validation treat a missing
exp as valid. -/
theorem c6_counterexample :
    tokNoExp.exp = Option.none ∧
    Tokenvalidation.ValidateNatsToken "s3cret" 0 tokNoExp =
      Tokenvalidation.TVResult.ok "dave" [] :=
  ⟨rfl, rfl⟩

/-- Claim C6, amended: a token whose exp claim is present is accepted only when
exp is strictly in the future (exp at or before now is rejected), but a token
with no exp claim passes the expiry checks and can be accepted. -/
theorem c6_expiry_strict_future (secret : String) (now : Int)
    (tok : Tokenvalidation.TokenModel) (uid : String)
    (perms : List (String × JValue)) (e : Int)
    (h : Tokenvalidation.ValidateNatsToken secret now tok =
      Tokenvalidation.TVResult.ok uid perms)
    (hexp : tok.exp = some e) : now < e :=
  parseWithClaims_ok_exp now tok () e
    (validateNatsToken_ok_parse secret now tok uid perms h) hexp

/-- Witness for the amended C6 at a concrete accepted token with exp 600, now 0. -/
theorem c6_expiry_strict_future_witness : (0 : Int) < 600 :=
  c6_expiry_strict_future "s3cret" 0 tokHS256 "carol" [] 600 rfl rfl

/-- Claim C7: for every request that authenticates successfully (through either
flow of the README handler), the minted user credential has subject equal to the
request's userNkey, audience equal to the principal's account, permissions equal
to the principal's PermissionSet, and name equal to the remembered authenticated
name — the token's user_id in the bearer flow, the username in the static flow. -/
theorem c7_minted_credential (secret : String) (now : Int)
    (tokenOf : String → Tokenvalidation.TokenModel)
    (repo : String → Option User) (rc : AuthRequestClaims)
    (user : User) (userID : String)
    (h : HandlerReadme.validateUser secret now tokenOf repo rc =
      HandlerReadme.AuthOutcome.ok user userID) :
    (mintedClaims rc.userNkey
        (HandlerReadme.mintName userID rc.connectOptions.username) user).sub =
      rc.userNkey ∧
    (mintedClaims rc.userNkey
        (HandlerReadme.mintName userID rc.connectOptions.username) user).aud =
      user.account ∧
    (mintedClaims rc.userNkey
        (HandlerReadme.mintName userID rc.connectOptions.username)
        user).permissions = user.permissions ∧
    (rc.connectOptions.token ≠ "" →
      (mintedClaims rc.userNkey
          (HandlerReadme.mintName userID rc.connectOptions.username) user).name =
        (tokenOf rc.connectOptions.token).userId ∧
      user.account = (tokenOf rc.connectOptions.token).account) ∧
    (rc.connectOptions.token = "" →
      (mintedClaims rc.userNkey
          (HandlerReadme.mintName userID rc.connectOptions.username) user).name =
        rc.connectOptions.username) := by
  refine ⟨rfl, rfl, rfl, ?_, ?_⟩
  · intro htok
    unfold HandlerReadme.validateUser at h
    rw [if_pos htok] at h
    cases hv : Tokenvalidation.ValidateNatsToken secret now
        (tokenOf rc.connectOptions.token) with
    | panicked =>
      simp only [hv] at h
      exact HandlerReadme.AuthOutcome.noConfusion h
    | err e =>
      simp only [hv] at h
      exact HandlerReadme.AuthOutcome.noConfusion h
    | ok uid perms =>
      simp only [hv] at h
      cases hcv : HandlerReadme.convertPermissions perms with
      | none =>
        simp only [hcv] at h
        exact HandlerReadme.AuthOutcome.noConfusion h
      | some jp =>
        simp only [hcv] at h
        injection h with hu hid
        have hf := validateNatsToken_ok_fields secret now
          (tokenOf rc.connectOptions.token) uid perms hv
        constructor
        · show HandlerReadme.mintName userID rc.connectOptions.username =
            (tokenOf rc.connectOptions.token).userId
          unfold HandlerReadme.mintName
          rw [if_neg (by rw [hid.symm, hf.1]; exact hf.2.1)]
          rw [hid.symm, hf.1]
        · rw [hu.symm]
  · intro htok
    unfold HandlerReadme.validateUser at h
    rw [htok] at h
    rw [if_neg (by simp)] at h
    split at h
    · exact HandlerReadme.AuthOutcome.noConfusion h
    · cases hrep : repo rc.connectOptions.username with
      | none =>
        simp only [hrep] at h
        exact HandlerReadme.AuthOutcome.noConfusion h
      | some u0 =>
        simp only [hrep] at h
        split at h
        · exact HandlerReadme.AuthOutcome.noConfusion h
        · injection h with hu hid
          show HandlerReadme.mintName userID rc.connectOptions.username =
            rc.connectOptions.username
          unfold HandlerReadme.mintName
          rw [if_pos hid.symm]

/-- Witness for C7 at a concrete bearer-flow request. -/
theorem c7_minted_credential_witness :
    (mintedClaims rcBearer.userNkey
        (HandlerReadme.mintName "bob" rcBearer.connectOptions.username)
        bobUser).name = (tokenOfBob rcBearer.connectOptions.token).userId ∧
    bobUser.account = (tokenOfBob rcBearer.connectOptions.token).account :=
  (c7_minted_credential "s3cret" 0 tokenOfBob repoEmpty rcBearer bobUser "bob"
    rfl).2.2.2.1 (by decide)

/-- Claim C8: evaluation at the failing input — a permissions document whose
pub.allow list contains the non-string element 42 makes the README translator
panic (the unchecked v.(string) assertion), instead of dropping the element
silently as the spec requires; translation is not total. -/
theorem c8_translator_panics_on_nonstring :
    HandlerReadme.convertPermissions badPermDoc = Option.none := rfl

/-- Claim C9, counterexample: config loading does not accept a configuration
whose auth.xkey_seed is absent or empty — Load rejects it with
"auth.xkey_seed is required" (and the config tests assert exactly this). -/
theorem c9_counterexample :
    cfgNoXkey.xkeySeed = "" ∧
    loadValidation cfgNoXkey = Except.error "auth.xkey_seed is required" :=
  ⟨rfl, rfl⟩

/-- Claim C9, amended: the curve seed is optional for key-material Parse — with
a valid issuer seed and an empty curve seed it succeeds with curve=none and
hasXKey=false — but the service's configuration loader requires auth.xkey_seed
to be non-empty and rejects a configuration where it is absent or empty. -/
theorem c9_optional_curve_amended (fromSeed : String → Except String NKey)
    (issuerSeed : String) (k : NKey) (cfg : Config)
    (h1 : issuerSeed ≠ "") (h2 : goStartsWith issuerSeed "SA" = true)
    (h3 : fromSeed issuerSeed = Except.ok k)
    (h4 : cfg.issuerSeed ≠ "") (h5 : cfg.xkeySeed = "") :
    Parse fromSeed issuerSeed "" =
      Except.ok { issuer := k, curve := Option.none, hasXKey := false } ∧
    loadValidation cfg = Except.error "auth.xkey_seed is required" := by
  constructor
  · unfold Parse
    rw [if_neg h1]
    simp only [h3]
    rw [if_neg (by simp [h2])]
    rw [if_neg (by simp)]
  · unfold loadValidation
    rw [if_neg h4, if_pos h5]

/-- Witness for the amended C9 at a concrete seed and configuration. -/
theorem c9_optional_curve_amended_witness :
    Parse fromSeedOk "SAISSUER" "" = Except.ok kpNoCurve ∧
    loadValidation cfgNoXkey = Except.error "auth.xkey_seed is required" :=
  c9_optional_curve_amended fromSeedOk "SAISSUER" nkey0 cfgNoXkey
    (by decide) (by decide) rfl (by decide) rfl

/-- Claim C10: for every token string of fewer than 10 bytes that does not
consist of three dot-separated segments (and a configured secret),
ValidateNatsToken panics on the tokenString[:10] slice in its format-check
branch instead of returning the invalid-token-format error. -/
theorem c10_short_token_panics (secret : String) (now : Int)
    (tok : Tokenvalidation.TokenModel)
    (h1 : secret ≠ "") (h2 : (goSplit tok.raw '.').length ≠ 3)
    (h3 : tok.raw.utf8ByteSize < 10) :
    Tokenvalidation.ValidateNatsToken secret now tok =
      Tokenvalidation.TVResult.panicked := by
  unfold Tokenvalidation.ValidateNatsToken
  rw [if_neg h1, if_pos h2, if_pos h3]

/-- Witness for C10 at the concrete token string "ab". -/
theorem c10_short_token_panics_witness :
    Tokenvalidation.ValidateNatsToken "s3cret" 0 tokShort =
      Tokenvalidation.TVResult.panicked :=
  c10_short_token_panics "s3cret" 0 tokShort (by decide) (by decide) (by decide)

end NatsAuth
